import Mathlib

/-!
Verification of the blankshield library (src/blankshield.js, together with the
earlier variant of the library in src/unnamed/part_000). The library mitigates
reverse tabnabbing: it intercepts clicks on anchors that would open a new
browsing context and opens the destination without leaving a usable
`window.opener` back-reference.

The JavaScript is embedded shallowly: DOM reads become fields of Lean
structures, side effects become explicit outcome records or event traces, and
fallible operations return `Option` or `Except`.
-/

namespace Blankshield

/-- A DOM element as `clickListener` observes it: the results of
`getAttribute('href')` and `getAttribute('target')`. `none` models a missing
attribute (a `null` return from `getAttribute`). -/
structure Elem where
  href : Option String
  targetAttr : Option String
deriving DecidableEq

/-- The fields of a click event that `clickListener` (src/blankshield.js,
lines 13-40) reads. `target`/`srcElement` are `none` when the event object
lacks the field; `hasPreventDefault` records whether `e.preventDefault`
exists (it does not on IE8 and below). -/
structure MouseEvent where
  target : Option Elem
  srcElement : Option Elem
  ctrlKey : Bool
  shiftKey : Bool
  metaKey : Bool
  hasPreventDefault : Bool
deriving DecidableEq

/-- The observable outcome of one run of `clickListener`: the urls passed to
`iframeOpen` in order, how many times `e.preventDefault()` was called,
whether `e.returnValue` was set to `false`, and the handler's JavaScript
return value (`none` models `undefined`, i.e. falling off the end). -/
structure ClickOutcome where
  opened : List String
  preventDefaultCalls : Nat
  returnValueSetFalse : Bool
  result : Option Bool
deriving DecidableEq

/-- JavaScript truth value of `!href` for the result of `getAttribute`:
true exactly for `null` and the empty string. -/
def hrefFalsy : Option String → Bool
  | none => true
  | some s => s == ""

/-- `e.target || e.srcElement` (src/blankshield.js, line 18). -/
def resolveTarget (e : MouseEvent) : Option Elem :=
  match e.target with
  | some t => some t
  | none => e.srcElement

/-- src/blankshield.js, lines 13-40. `clickListener` reads the target element
off the event, returns early when the element has no (non-empty) `href` or
when the click is not blank-target-like, and otherwise calls
`iframeOpen(href)` and cancels the default action. The result is `none` when
the event resolves no target element at all (the JavaScript would throw
reading `getAttribute` of `undefined`); every other path is total. -/
def clickListener (e : MouseEvent) : Option ClickOutcome :=
  match resolveTarget e with
  | none => none
  | some target =>
    match target.href with
    | none =>
      some { opened := [], preventDefaultCalls := 0
             , returnValueSetFalse := false, result := none }
    | some href =>
      if href == "" then
        some { opened := [], preventDefaultCalls := 0
               , returnValueSetFalse := false, result := none }
      else
        let usedModifier := e.ctrlKey || e.shiftKey || e.metaKey
        if !usedModifier && !(target.targetAttr == some "_blank") then
          some { opened := [], preventDefaultCalls := 0
                 , returnValueSetFalse := false, result := none }
        else
          some { opened := [href]
                 , preventDefaultCalls := if e.hasPreventDefault then 1 else 0
                 , returnValueSetFalse := !e.hasPreventDefault
                 , result := some false }

/-- Total number of default-navigation cancellations in an outcome: calls to
`preventDefault` plus the legacy `returnValue = false` write. -/
def cancelCount (o : ClickOutcome) : Nat :=
  o.preventDefaultCalls + (if o.returnValueSetFalse then 1 else 0)

/-- The decision predicate of the spec: the element has a non-empty `href`
and either `target="_blank"` or a modifier key was held. -/
def qualifiesB (e : MouseEvent) (t : Elem) : Bool :=
  !hrefFalsy t.href &&
    (t.targetAttr == some "_blank" || e.ctrlKey || e.shiftKey || e.metaKey)

/-- The outcome of a non-qualifying click: nothing opened, nothing
cancelled, no return value. -/
def noopOutcome : ClickOutcome :=
  { opened := [], preventDefaultCalls := 0
    , returnValueSetFalse := false, result := none }

/-- Evaluation lemma: on a non-qualifying click the handler returns early
with no side effect. -/
theorem clickListener_eq_noop (e : MouseEvent) (t : Elem)
    (ht : resolveTarget e = some t) (hq : qualifiesB e t = false) :
    clickListener e = some noopOutcome := by
  cases hh : t.href with
  | none => simp [clickListener, ht, hh, noopOutcome]
  | some u =>
    by_cases hu : u = ""
    · subst hu
      simp [clickListener, ht, hh, noopOutcome]
    · have hb : (t.targetAttr == some "_blank") = false := by
        cases h : (t.targetAttr == some "_blank") with
        | false => rfl
        | true => simp [qualifiesB, hrefFalsy, hh, hu, h] at hq
      have hc : e.ctrlKey = false := by
        cases h : e.ctrlKey with
        | false => rfl
        | true => simp [qualifiesB, hrefFalsy, hh, hu, h] at hq
      have hs : e.shiftKey = false := by
        cases h : e.shiftKey with
        | false => rfl
        | true => simp [qualifiesB, hrefFalsy, hh, hu, h] at hq
      have hm : e.metaKey = false := by
        cases h : e.metaKey with
        | false => rfl
        | true => simp [qualifiesB, hrefFalsy, hh, hu, h] at hq
      simp only [beq_eq_false_iff_ne, ne_eq] at hb
      simp [clickListener, ht, hh, hu, hb, hc, hs, hm, noopOutcome]

/-- Evaluation lemma: on a qualifying click the handler opens the href via
the isolation strategy and cancels the default action. -/
theorem clickListener_eq_active (e : MouseEvent) (t : Elem) (u : String)
    (ht : resolveTarget e = some t) (hh : t.href = some u)
    (hq : qualifiesB e t = true) :
    clickListener e =
      some { opened := [u]
             , preventDefaultCalls := if e.hasPreventDefault then 1 else 0
             , returnValueSetFalse := !e.hasPreventDefault
             , result := some false } := by
  cases h1 : (t.targetAttr == some "_blank") <;> cases h2 : e.ctrlKey <;>
      cases h3 : e.shiftKey <;> cases h4 : e.metaKey <;>
    simp_all [clickListener, qualifiesB, hrefFalsy, ht, hh]

/-- Claim C1: for every click event that resolves a target element, the
handler isolates with the element's href and cancels default navigation
exactly once when the element's `href` is non-empty and the click is
blank-target-like, and performs no isolation and no cancellation
otherwise. -/
theorem clickListener_decision (e : MouseEvent) (t : Elem)
    (ht : resolveTarget e = some t) :
    ∃ o, clickListener e = some o ∧
      (∀ u, t.href = some u → qualifiesB e t = true →
        o.opened = [u] ∧ cancelCount o = 1) ∧
      (qualifiesB e t = false → o.opened = [] ∧ cancelCount o = 0) := by
  cases hq : qualifiesB e t with
  | false =>
    refine ⟨noopOutcome, clickListener_eq_noop e t ht hq, ?_, ?_⟩
    · intro u _ hqt
      simp at hqt
    · intro _
      exact ⟨rfl, rfl⟩
  | true =>
    cases hh : t.href with
    | none =>
      exfalso
      simp [qualifiesB, hrefFalsy, hh] at hq
    | some u =>
      refine ⟨_, clickListener_eq_active e t u ht hh hq, ?_, ?_⟩
      · intro v hv _
        have hvu := Option.some.inj hv
        subst hvu
        refine ⟨rfl, ?_⟩
        cases hpd : e.hasPreventDefault <;> simp [cancelCount]
      · intro hqf
        simp at hqf

/-- Witness for C1 at a concrete qualifying event. -/
theorem clickListener_decision_witness :
    resolveTarget
        { target := some { href := some "https://example.com", targetAttr := some "_blank" }
          , srcElement := none, ctrlKey := false, shiftKey := false
          , metaKey := false, hasPreventDefault := true } =
      some { href := some "https://example.com", targetAttr := some "_blank" } ∧
    ∃ o,
      clickListener
          { target := some { href := some "https://example.com", targetAttr := some "_blank" }
            , srcElement := none, ctrlKey := false, shiftKey := false
            , metaKey := false, hasPreventDefault := true } = some o ∧
      (∀ u, Elem.href { href := some "https://example.com", targetAttr := some "_blank" } = some u →
        qualifiesB
          { target := some { href := some "https://example.com", targetAttr := some "_blank" }
            , srcElement := none, ctrlKey := false, shiftKey := false
            , metaKey := false, hasPreventDefault := true }
          { href := some "https://example.com", targetAttr := some "_blank" } = true →
        o.opened = [u] ∧ cancelCount o = 1) ∧
      (qualifiesB
          { target := some { href := some "https://example.com", targetAttr := some "_blank" }
            , srcElement := none, ctrlKey := false, shiftKey := false
            , metaKey := false, hasPreventDefault := true }
          { href := some "https://example.com", targetAttr := some "_blank" } = false →
        o.opened = [] ∧ cancelCount o = 0) :=
  ⟨rfl, clickListener_decision _ _ rfl⟩

/-- Claim C9: on a qualifying click the handler cancels by calling
`preventDefault` when the event exposes it, otherwise by setting the legacy
`returnValue` flag to false, and its return value is `false` (a falsy
cancel signal). -/
theorem clickListener_cancel_mechanism (e : MouseEvent) (t : Elem)
    (ht : resolveTarget e = some t) (hq : qualifiesB e t = true) :
    ∃ o, clickListener e = some o ∧ o.result = some false ∧
      (e.hasPreventDefault = true →
        o.preventDefaultCalls = 1 ∧ o.returnValueSetFalse = false) ∧
      (e.hasPreventDefault = false →
        o.preventDefaultCalls = 0 ∧ o.returnValueSetFalse = true) := by
  cases hh : t.href with
  | none =>
    exfalso
    simp [qualifiesB, hrefFalsy, hh] at hq
  | some u =>
    refine ⟨_, clickListener_eq_active e t u ht hh hq, rfl, ?_, ?_⟩
    · intro h
      simp [h]
    · intro h
      simp [h]

/-- Witness for C9 at a concrete qualifying event whose event object lacks
`preventDefault` (the legacy branch). -/
theorem clickListener_cancel_mechanism_witness :
    resolveTarget
        { target := some { href := some "https://a.example", targetAttr := none }
          , srcElement := none, ctrlKey := true, shiftKey := false
          , metaKey := false, hasPreventDefault := false } =
      some { href := some "https://a.example", targetAttr := none } ∧
    qualifiesB
        { target := some { href := some "https://a.example", targetAttr := none }
          , srcElement := none, ctrlKey := true, shiftKey := false
          , metaKey := false, hasPreventDefault := false }
        { href := some "https://a.example", targetAttr := none } = true ∧
    ∃ o,
      clickListener
          { target := some { href := some "https://a.example", targetAttr := none }
            , srcElement := none, ctrlKey := true, shiftKey := false
            , metaKey := false, hasPreventDefault := false } = some o ∧
      o.result = some false ∧
      (MouseEvent.hasPreventDefault
          { target := some { href := some "https://a.example", targetAttr := none }
            , srcElement := none, ctrlKey := true, shiftKey := false
            , metaKey := false, hasPreventDefault := false } = true →
        o.preventDefaultCalls = 1 ∧ o.returnValueSetFalse = false) ∧
      (MouseEvent.hasPreventDefault
          { target := some { href := some "https://a.example", targetAttr := none }
            , srcElement := none, ctrlKey := true, shiftKey := false
            , metaKey := false, hasPreventDefault := false } = false →
        o.preventDefaultCalls = 0 ∧ o.returnValueSetFalse = true) :=
  ⟨rfl, by decide, clickListener_cancel_mechanism _ _ rfl (by decide)⟩

/-- Claim C10: the handler reads `href` and `target` from the click event's
own target element; on a click landing on an element with no `href`
attribute (such as a descendant node of a protected anchor), it performs no
isolation and no cancellation, whatever element the handler was attached
to. -/
theorem clickListener_no_href_noop (e : MouseEvent) (t : Elem)
    (ht : resolveTarget e = some t) (hh : t.href = none) :
    ∃ o, clickListener e = some o ∧
      o.opened = [] ∧ cancelCount o = 0 ∧ o.result = none := by
  refine ⟨noopOutcome, ?_, rfl, rfl, rfl⟩
  apply clickListener_eq_noop e t ht
  simp [qualifiesB, hrefFalsy, hh]

/-- Witness for C10: a click on an element with no `href`, with a modifier
held, isolates nothing and cancels nothing. -/
theorem clickListener_no_href_noop_witness :
    resolveTarget
        { target := some { href := none, targetAttr := some "_blank" }
          , srcElement := none, ctrlKey := true, shiftKey := false
          , metaKey := false, hasPreventDefault := true } =
      some { href := none, targetAttr := some "_blank" } ∧
    Elem.href { href := none, targetAttr := some "_blank" } = none ∧
    ∃ o,
      clickListener
          { target := some { href := none, targetAttr := some "_blank" }
            , srcElement := none, ctrlKey := true, shiftKey := false
            , metaKey := false, hasPreventDefault := true } = some o ∧
      o.opened = [] ∧ cancelCount o = 0 ∧ o.result = none :=
  ⟨rfl, rfl, clickListener_no_href_noop _ _ rfl rfl⟩

/-- A handle to a newly opened browsing context (a non-null `window.open`
result). `opener` is its back-reference to the opening page (`some ()` means
the reference is live, `none` means it has been nulled). -/
structure ChildWindow where
  opener : Option Unit
deriving DecidableEq

/-- src/unnamed/part_000, lines 15-16: the direct isolation strategy
`child = window.open(href); child.opener = null;`. The argument is the
result of the window-opening primitive, `none` when the popup was blocked.
The code performs the `child.opener = null` assignment unconditionally, so
on a `null` handle the property write dereferences `null` and the run ends
in a thrown TypeError. -/
def directOpen (openResult : Option ChildWindow) : Except String ChildWindow :=
  match openResult with
  | some child => .ok { child with opener := none }
  | none => .error "TypeError: cannot set property of null"

/-- Claim C2 evaluated at the failing input: when the window-opening
primitive returns null (popup blocked), the direct strategy is not a no-op —
the unconditional `child.opener = null` write throws, contradicting the
spec's no-error policy. -/
theorem directOpen_null_throws :
    directOpen none = .error "TypeError: cannot set property of null" := rfl

/-- An event handler for the registration utility. `base i` stands for a
host-supplied function identified by `i`; `chain f g` is the anonymous
wrapper `function() { listener(); prevListener(); }` that the legacy
fallback constructs, which invokes `f` and then `g`. -/
inductive EvtCallback where
  | base (id : Nat)
  | chain (first second : EvtCallback)
deriving DecidableEq

/-- The observable effect sequence of invoking a handler once: the ids of
the base handlers it runs, in execution order. -/
def EvtCallback.run : EvtCallback → List Nat
  | .base i => [i]
  | .chain f g => f.run ++ g.run

/-- An element as the registration utility probes it: whether it exposes the
standard `addEventListener` API or the legacy `attachEvent` API, the handler
lists those two APIs accumulate, and the single `"on" + type` property
slot. -/
structure EvtTarget where
  hasStd : Bool
  hasLegacyAttach : Bool
  stdHandlers : List EvtCallback
  legacyHandlers : List EvtCallback
  onSlot : Option EvtCallback
deriving DecidableEq

/-- src/blankshield.js, lines 71-92: the cross-browser `addEventListener`
utility for a fixed event type. Tier 1 uses the standard API, tier 2 the
legacy attach API; otherwise, if the `"on" + type` slot already holds a
handler, it is wrapped (new handler first, previous second), and only an
empty slot is assigned directly. -/
def addEventListener (target : EvtTarget) (l : EvtCallback) : EvtTarget :=
  if target.hasStd then
    { target with stdHandlers := target.stdHandlers ++ [l] }
  else if target.hasLegacyAttach then
    { target with legacyHandlers := target.legacyHandlers ++ [l] }
  else
    match target.onSlot with
    | some prev => { target with onSlot := some (.chain l prev) }
    | none => { target with onSlot := some l }

/-- src/unnamed/part_000, lines 31-39: the earlier variant's `addEvent`.
It has no wrap tier: when neither registration API is present it assigns
the `"on" + type` slot directly, whatever the slot held before. -/
def addEvent (target : EvtTarget) (l : EvtCallback) : EvtTarget :=
  if target.hasStd then
    { target with stdHandlers := target.stdHandlers ++ [l] }
  else if target.hasLegacyAttach then
    { target with legacyHandlers := target.legacyHandlers ++ [l] }
  else
    { target with onSlot := some l }

/-- Unlike the main utility, the earlier variant's `addEvent` replaces a
previously assigned `on`-slot handler instead of chaining it; the
Tier 3 contract of the spec describes only the main utility. -/
theorem addEvent_replaces_on_slot :
    (addEvent
        { hasStd := false, hasLegacyAttach := false, stdHandlers := []
          , legacyHandlers := [], onSlot := some (.base 7) }
        (.base 8)).onSlot = some (.base 8) := rfl

/-- Dispatching one click on an element that has neither registration API:
the host invokes the `"on" + type` property slot, if any. -/
def fireOnSlot (target : EvtTarget) : List Nat :=
  match target.onSlot with
  | some h => h.run
  | none => []

/-- Claim C3: on an element with neither registration API whose `on`-slot
already holds a handler, registering a new handler installs a wrapper that
runs the new handler first and then the prior one, so one click produces
both handlers' effects and the prior handler is not dropped. -/
theorem addEventListener_chains (t : EvtTarget) (prev l : EvtCallback)
    (h1 : t.hasStd = false) (h2 : t.hasLegacyAttach = false)
    (h3 : t.onSlot = some prev) :
    (addEventListener t l).onSlot = some (.chain l prev) ∧
      fireOnSlot (addEventListener t l) = l.run ++ prev.run := by
  constructor
  · simp [addEventListener, h1, h2, h3]
  · simp [addEventListener, fireOnSlot, h1, h2, h3, EvtCallback.run]

/-- Witness for C3 on a concrete legacy-only element with a prior
handler. -/
theorem addEventListener_chains_witness :
    EvtTarget.hasStd
        { hasStd := false, hasLegacyAttach := false, stdHandlers := []
          , legacyHandlers := [], onSlot := some (.base 7) } = false ∧
    EvtTarget.hasLegacyAttach
        { hasStd := false, hasLegacyAttach := false, stdHandlers := []
          , legacyHandlers := [], onSlot := some (.base 7) } = false ∧
    EvtTarget.onSlot
        { hasStd := false, hasLegacyAttach := false, stdHandlers := []
          , legacyHandlers := [], onSlot := some (.base 7) } = some (.base 7) ∧
    ((addEventListener
        { hasStd := false, hasLegacyAttach := false, stdHandlers := []
          , legacyHandlers := [], onSlot := some (.base 7) }
        (.base 8)).onSlot = some (.chain (.base 8) (.base 7)) ∧
      fireOnSlot
          (addEventListener
            { hasStd := false, hasLegacyAttach := false, stdHandlers := []
              , legacyHandlers := [], onSlot := some (.base 7) }
            (.base 8)) =
        EvtCallback.run (.base 8) ++ EvtCallback.run (.base 7)) :=
  ⟨rfl, rfl, rfl, addEventListener_chains _ _ _ rfl rfl rfl⟩

/-- The kinds of value the entry point receives, as its dynamic checks
distinguish them: a single DOM element (which has no `length` property), an
array-like collection of elements, a primitive string, or a String
object. -/
inductive AttachTarget where
  | element (id : Nat)
  | collection (ids : List Nat)
  | primString (s : String)
  | stringObject (s : String)
deriving DecidableEq

/-- `typeof target.length !== 'undefined'`: collections, primitive strings
and String objects all have a `length` property; a plain element does
not. -/
def hasLength : AttachTarget → Bool
  | .element _ => false
  | .collection _ => true
  | .primString _ => true
  | .stringObject _ => true

/-- `typeof target === 'string' || target instanceof String`. -/
def isStringLike : AttachTarget → Bool
  | .primString _ => true
  | .stringObject _ => true
  | .element _ => false
  | .collection _ => false

/-- The value of `target.length` (only read on values that have one; an
element's slot is given as 0 but is never consulted by `blankshield`). -/
def lengthOf : AttachTarget → Nat
  | .element _ => 0
  | .collection ids => ids.length
  | .primString s => s.length
  | .stringObject s => s.length

/-- What one call to the registration utility was given: the whole attach
argument (`addEventListener(target, ...)`) or the item at index `i` of it
(`addEventListener(target[i], ...)`). Every registration the attachment
layer performs is for the 'click' event with `clickListener` as the
handler, so a registration is identified by this value alone. -/
inductive Registrant where
  | whole (t : AttachTarget)
  | item (t : AttachTarget) (i : Nat)
deriving DecidableEq

/-- src/blankshield.js, lines 53-61 (identically src/unnamed/part_000,
lines 21-29): the `blankshield` entry point. Returns the registrations it
performs, in order. -/
def blankshield (target : AttachTarget) : List Registrant :=
  if hasLength target = false then
    [.whole target]
  else if isStringLike target = false then
    (List.range (lengthOf target)).map (.item target)
  else
    []

/-- Claim C7: a string-like argument (primitive string or String object)
causes zero registrations — in particular the string is never iterated
character-by-character as a collection. -/
theorem blankshield_string_noop (s : String) :
    blankshield (.primString s) = [] ∧ blankshield (.stringObject s) = [] := by
  constructor <;> simp [blankshield, hasLength, isStringLike]

/-- Claim C8: an argument with no `length` property is treated as a single
element: exactly one registration is performed, on that argument itself. -/
theorem blankshield_single (target : AttachTarget)
    (h : hasLength target = false) :
    blankshield target = [.whole target] := by
  simp [blankshield, h]

/-- Witness for C8 on a concrete single element. -/
theorem blankshield_single_witness :
    hasLength (.element 3) = false ∧
      blankshield (.element 3) = [.whole (.element 3)] :=
  ⟨rfl, blankshield_single (.element 3) rfl⟩

/-- src/blankshield.js, lines 110-112: the text assigned to the injected
script element, built by raw string concatenation around `url`, exactly as
in the source. -/
def iframeScriptText (url : String) : String :=
  "window.parent = null; window.top = null;" ++
    ("window.frameElement = null; var child = window.open(\"" ++ url ++ "\");") ++
    "child.opener = null"

/-- The content of the first double-quoted string literal of a script text
under the execution context's string-literal rules: the characters strictly
between the first `"` and the next `"`, which terminates the literal. -/
def firstLiteral (s : String) : String :=
  String.mk ((((s.data).dropWhile (· ≠ '"')).drop 1).takeWhile (· ≠ '"'))

/-- Claim C4 evaluated at a failing input: a url containing a double quote
does not appear as a single complete string literal in the generated script
text — the literal the execution context sees stops at the url's own quote,
and the url's remaining characters fall outside it as executable script
text. This contradicts the claimed safe embedding. -/
theorem iframeScriptText_unsafe_embedding :
    firstLiteral (iframeScriptText "x\");alert(1);(\"") = "x" ∧
      "x" ≠ "x\");alert(1);(\"" := by
  constructor
  · rfl
  · decide

/-- The statements of the script that `iframeOpen` injects, as an abstract
syntax; `stmtText` renders each constructor back to its exact JavaScript
source text, and `iframeScriptText_eq_render` below checks that the
rendering reproduces the source's generated text verbatim. -/
inductive ScriptStmt where
  | setParentNull
  | setTopNull
  | setFrameElementNull
  | openChild (url : String)
  | setChildOpenerNull
deriving DecidableEq

/-- The JavaScript source text of each injected statement. -/
def stmtText : ScriptStmt → String
  | .setParentNull => "window.parent = null"
  | .setTopNull => "window.top = null"
  | .setFrameElementNull => "window.frameElement = null"
  | .openChild url => "var child = window.open(\"" ++ url ++ "\")"
  | .setChildOpenerNull => "child.opener = null"

/-- The statement sequence of the injected script. -/
def injectedScript (url : String) : List ScriptStmt :=
  [.setParentNull, .setTopNull, .setFrameElementNull,
   .openChild url, .setChildOpenerNull]

/-- The source's generated script text is exactly the rendering of
`injectedScript` (statement texts joined with the source's separators). -/
theorem iframeScriptText_eq_render (url : String) :
    iframeScriptText url =
      stmtText .setParentNull ++ "; " ++ stmtText .setTopNull ++ ";" ++
        stmtText .setFrameElementNull ++ "; " ++ stmtText (.openChild url) ++
        ";" ++ stmtText .setChildOpenerNull := by
  apply String.ext
  simp only [iframeScriptText, stmtText, String.data_append, List.append_assoc]
  rfl

/-- State of the iframe's window while the injected script runs. The three
`Ref` fields record whether `window.parent`, `window.top` and
`window.frameElement` still reference their browsing contexts; `childVar`
is the script's `child` variable (`none` before the declaration runs,
`some none` when `window.open` returned null, `some (some h)` for handle
`h`); `openCalls` lists the urls passed to the window-opening primitive in
order; `openerNulled` lists the handles whose `opener` was set to null. -/
structure ScriptState where
  parentRef : Bool
  topRef : Bool
  frameElementRef : Bool
  childVar : Option (Option Nat)
  openCalls : List String
  openerNulled : List Nat
deriving DecidableEq

/-- The iframe window's state when the injected script starts: all context
references live, no `child` variable, nothing opened. -/
def startScriptState : ScriptState :=
  { parentRef := true, topRef := true, frameElementRef := true
    , childVar := none, openCalls := [], openerNulled := [] }

/-- One observable action of the injected script. -/
inductive ScriptAction where
  | nulledParent
  | nulledTop
  | nulledFrameElement
  | openedWindow (url : String) (result : Option Nat)
  | nulledOpener (handle : Nat)
deriving DecidableEq

/-- Small-step semantics of one injected statement. `openPrim` is the
window-opening primitive (`none` models a blocked popup). Assigning
`child.opener = null` on a null or undefined `child` throws, as in
JavaScript. -/
def runStmt (openPrim : String → Option Nat) :
    ScriptStmt → ScriptState → Except String (ScriptState × ScriptAction)
  | .setParentNull, s => .ok ({ s with parentRef := false }, .nulledParent)
  | .setTopNull, s => .ok ({ s with topRef := false }, .nulledTop)
  | .setFrameElementNull, s =>
      .ok ({ s with frameElementRef := false }, .nulledFrameElement)
  | .openChild url, s =>
      .ok ({ s with childVar := some (openPrim url), openCalls := s.openCalls ++ [url] },
        .openedWindow url (openPrim url))
  | .setChildOpenerNull, s =>
      match s.childVar with
      | some (some h) =>
          .ok ({ s with openerNulled := s.openerNulled ++ [h] },
            .nulledOpener h)
      | some none => .error "TypeError: cannot set property of null"
      | none => .error "ReferenceError: child is not defined"

/-- Runs a statement sequence, collecting the action trace in order. -/
def runScript (openPrim : String → Option Nat) :
    List ScriptStmt → ScriptState →
      Except String (ScriptState × List ScriptAction)
  | [], s => .ok (s, [])
  | stmt :: rest, s =>
    match runStmt openPrim stmt s with
    | .error msg => .error msg
    | .ok (s1, a) =>
      match runScript openPrim rest s1 with
      | .error msg => .error msg
      | .ok (s2, as) => .ok (s2, a :: as)

/-- Claim C5: the generated script text renders the statement sequence
`injectedScript`, and running that sequence performs, in order: nulling the
parent, top and frame-element references, then one call to the
window-opening primitive with `url` capturing the handle, then nulling that
handle's opener back-reference. -/
theorem injectedScript_behavior (url : String)
    (openPrim : String → Option Nat) (h : Nat)
    (hopen : openPrim url = some h) :
    iframeScriptText url =
      stmtText .setParentNull ++ "; " ++ stmtText .setTopNull ++ ";" ++
        stmtText .setFrameElementNull ++ "; " ++ stmtText (.openChild url) ++
        ";" ++ stmtText .setChildOpenerNull ∧
    runScript openPrim (injectedScript url) startScriptState =
      .ok ({ parentRef := false, topRef := false, frameElementRef := false
             , childVar := some (some h), openCalls := [url]
             , openerNulled := [h] },
        [.nulledParent, .nulledTop, .nulledFrameElement,
         .openedWindow url (some h), .nulledOpener h]) := by
  refine ⟨iframeScriptText_eq_render url, ?_⟩
  simp [runScript, runStmt, injectedScript, startScriptState, hopen]

/-- Witness for C5 with a concrete url and a primitive that returns
handle 0. -/
theorem injectedScript_behavior_witness :
    (fun _ : String => some 0) "https://example.com" = some 0 ∧
    (iframeScriptText "https://example.com" =
      stmtText .setParentNull ++ "; " ++ stmtText .setTopNull ++ ";" ++
        stmtText .setFrameElementNull ++ "; " ++
        stmtText (.openChild "https://example.com") ++
        ";" ++ stmtText .setChildOpenerNull ∧
    runScript (fun _ : String => some 0)
        (injectedScript "https://example.com") startScriptState =
      .ok ({ parentRef := false, topRef := false, frameElementRef := false
             , childVar := some (some 0), openCalls := ["https://example.com"]
             , openerNulled := [0] },
        [.nulledParent, .nulledTop, .nulledFrameElement,
         .openedWindow "https://example.com" (some 0), .nulledOpener 0])) :=
  ⟨rfl, injectedScript_behavior "https://example.com" _ 0 rfl⟩

/-- The document as `iframeOpen` touches it: the ordered child nodes of
`document.body` (as node ids) and a counter supplying fresh ids for
`createElement`. -/
structure Dom where
  bodyChildren : List Nat
  nextId : Nat
deriving DecidableEq

/-- Every node already in the body has an id below the fresh-id counter, so
`createElement` really creates a node distinct from the existing ones. -/
def Dom.WellFormed (dom : Dom) : Prop :=
  ∀ x ∈ dom.bodyChildren, x < dom.nextId

/-- One observable document-tree effect of `iframeOpen`, in order. -/
inductive DomEvent where
  | appendedToBody (id : Nat)
  | ranInjectedScript (iframeId : Nat) (text : String)
  | removedFromBody (id : Nat)
deriving DecidableEq

/-- src/blankshield.js, lines 100-116: create a hidden iframe, append it to
`document.body`, append the generated script to the iframe's document
(which runs the injected script synchronously), then remove the iframe
from `document.body`. Returns the final document state and the event
trace. -/
def iframeOpen (url : String) (dom : Dom) : Dom × List DomEvent :=
  let iframeId := dom.nextId
  let afterAppend : Dom :=
    { bodyChildren := dom.bodyChildren ++ [iframeId], nextId := dom.nextId + 1 }
  let afterRemove : Dom :=
    { afterAppend with bodyChildren := afterAppend.bodyChildren.erase iframeId }
  (afterRemove,
    [.appendedToBody iframeId,
     .ranInjectedScript iframeId (iframeScriptText url),
     .removedFromBody iframeId])

/-- Claim C6: every call to `iframeOpen` appends the transient iframe to
the document body during the call and removes it again before returning:
the trace shows the append strictly before the removal, and the final body
equals the original, with the iframe no longer present. -/
theorem iframeOpen_teardown (url : String) (dom : Dom)
    (hwf : dom.WellFormed) :
    (iframeOpen url dom).2 =
      [.appendedToBody dom.nextId,
       .ranInjectedScript dom.nextId (iframeScriptText url),
       .removedFromBody dom.nextId] ∧
    (iframeOpen url dom).1.bodyChildren = dom.bodyChildren ∧
    dom.nextId ∉ (iframeOpen url dom).1.bodyChildren := by
  have hfresh : dom.nextId ∉ dom.bodyChildren := by
    intro hmem
    exact absurd (hwf dom.nextId hmem) (lt_irrefl _)
  have herase : (dom.bodyChildren ++ [dom.nextId]).erase dom.nextId =
      dom.bodyChildren := by
    rw [List.erase_append_right _ hfresh, List.erase_cons_head, List.append_nil]
  refine ⟨rfl, ?_, ?_⟩
  · simp only [iframeOpen]
    exact herase
  · simp only [iframeOpen]
    rw [herase]
    exact hfresh

/-- Witness for C6 on a concrete document with two existing body nodes. -/
theorem iframeOpen_teardown_witness :
    Dom.WellFormed { bodyChildren := [0, 1], nextId := 2 } ∧
    ((iframeOpen "https://example.com" { bodyChildren := [0, 1], nextId := 2 }).2 =
      [.appendedToBody 2,
       .ranInjectedScript 2 (iframeScriptText "https://example.com"),
       .removedFromBody 2] ∧
    (iframeOpen "https://example.com"
        { bodyChildren := [0, 1], nextId := 2 }).1.bodyChildren = [0, 1] ∧
    2 ∉ (iframeOpen "https://example.com"
        { bodyChildren := [0, 1], nextId := 2 }).1.bodyChildren) :=
  ⟨by intro x hx; fin_cases hx <;> decide,
    iframeOpen_teardown "https://example.com" _
      (by intro x hx; fin_cases hx <;> decide)⟩

end Blankshield
